import Mathlib

/-!
Verification development for the Sketchfab MCP server
(`src/mcp_server_threejs/server.py`): a shallow embedding of the
credential lifecycle (`SketchfabClient.__init__`, `load_from_file`,
`store_updated_credentials`, `refresh_access_token`,
`ensure_valid_token`), the startup loader (`get_oauth_credentials`),
the catalog calls (`search` parameter construction, `download_model`)
and the tool adapter (`handle_invoke_tool`).

Python `Optional[str]` fields are `Option String`; Python truthiness
(None and the empty string are falsy; None and 0 are falsy for the
expiry number) is made explicit by `truthyS` / `truthyI`.  Wall-clock
time (`time.time()`) is passed in as an explicit `now : Int`; every
external HTTP interaction is passed in as an explicit outcome value so
the functions stay pure while following the source line by line.
-/

namespace ThreeJS

/-- The single-quote character, used verbatim inside several of the
server's error message strings. -/
def sq : String := String.singleton (Char.ofNat 39)

/-- The mutable credential state carried by `SketchfabClient`:
`access_token`, `refresh_token`, `client_id`, `client_secret`
(each `Optional[str]`) and `token_expiry` (an optional epoch-seconds
number, `None` until assigned). -/
structure Cred where
  accessToken : Option String
  refreshToken : Option String
  clientId : Option String
  clientSecret : Option String
  tokenExpiry : Option Int
deriving Repr, DecidableEq

/-- Python truthiness of an `Optional[str]`: `None` and `""` are falsy. -/
def truthyS : Option String → Bool
  | none => false
  | some s => s != ""

/-- Python truthiness of the optional expiry number: `None` and `0` are falsy. -/
def truthyI : Option Int → Bool
  | none => false
  | some n => n != 0

/-- `SketchfabClient.__init__`: stores the four credential strings, sets
`token_expiry = None`, then — if an access token is present and no
expiry is set — defaults the expiry to `time.time() + 30*24*60*60`
(30 days = 2592000 seconds). -/
def init (now : Int) (access_token refresh_token client_id client_secret : Option String) : Cred :=
  let c : Cred := ⟨access_token, refresh_token, client_id, client_secret, none⟩
  if truthyS c.accessToken && !truthyI c.tokenExpiry then
    { c with tokenExpiry := some (now + 30 * 24 * 60 * 60) }
  else c

/-- The JSON object stored in (or read from) the credentials file:
five keys `access_token`, `refresh_token`, `client_id`,
`client_secret`, `token_expiry`.  `Option` marks whether each key is
present. -/
structure CredJson where
  access_token : Option String
  refresh_token : Option String
  client_id : Option String
  client_secret : Option String
  token_expiry : Option Int
deriving Repr, DecidableEq

/-- The five concrete values serialized by `store_updated_credentials`
(and produced by `get_oauth_credentials`): strings default to `""`,
the expiry defaults to `0`. -/
structure CredDict where
  access_token : String
  refresh_token : String
  client_id : String
  client_secret : String
  token_expiry : Int
deriving Repr, DecidableEq

/-- Outcome of trying to read the credentials file: the file is
missing, the open/`json.load` raises (malformed contents), or it
parses to a JSON object. -/
inductive FileRead where
  | missing
  | unreadable
  | content (j : CredJson)
deriving Repr, DecidableEq

/-- `SketchfabClient.load_from_file`: returns `None` when the file is
missing (after a warning log) and `None` when reading or parsing
raises; otherwise builds a client via the constructor with each string
defaulted to `""`, then overwrites `token_expiry` with the file's
value when that key is present and truthy. -/
def load_from_file (now : Int) (f : FileRead) : Option Cred :=
  match f with
  | .missing => none
  | .unreadable => none
  | .content j =>
    let c := init now (some (j.access_token.getD "")) (some (j.refresh_token.getD ""))
      (some (j.client_id.getD "")) (some (j.client_secret.getD ""))
    let c := if truthyI j.token_expiry then { c with tokenExpiry := j.token_expiry } else c
    some c

/-- The five-field dictionary built by `store_updated_credentials`:
each string field falls back to `""` when falsy, the expiry falls back
to `0` when falsy. -/
def store_serialize (c : Cred) : CredDict :=
  { access_token := if truthyS c.accessToken then c.accessToken.getD "" else ""
  , refresh_token := if truthyS c.refreshToken then c.refreshToken.getD "" else ""
  , client_id := if truthyS c.clientId then c.clientId.getD "" else ""
  , client_secret := if truthyS c.clientSecret then c.clientSecret.getD "" else ""
  , token_expiry := if truthyI c.tokenExpiry then c.tokenExpiry.getD 0 else 0 }

/-- Successive on-disk contents of the credentials file observable
while `store_updated_credentials` runs: `open(path, "w")` first
truncates the file to empty, then `json.dump` writes the
serialization. -/
inductive FileContent where
  | empty
  | json (d : CredDict)
  | raw (bytes : String)
deriving Repr, DecidableEq

/-- The path separator character. -/
def slash : Char := Char.ofNat 47

/-- `os.path.dirname`: everything before the final path separator
(empty when the path has no separator). -/
def dirname (p : String) : String :=
  let cs := p.toList
  if slash ∈ cs then
    String.mk (((cs.reverse.dropWhile (fun c => c != slash)).drop 1).reverse)
  else ""

/-- What `store_updated_credentials` did: whether it returned `True`,
the sequence of on-disk states the target file passes through from the
`open` onward, and the directories handed to `os.makedirs`. -/
structure StoreResult where
  ok : Bool
  states : List FileContent
  dirsCreated : List String
deriving Repr, DecidableEq

/-- `SketchfabClient.store_updated_credentials`: resolves the default
path `~/.sketchfab_credentials.json` when none is given, calls
`os.makedirs(os.path.dirname(path), exist_ok=True)` (which raises when
the dirname is empty; the exception is caught and `False` returned),
then opens the file with mode `"w"` — truncating it — and writes the
five-field serialization. -/
def store_updated_credentials (c : Cred) (credentials_file : Option String) (home : String) :
    StoreResult :=
  let path := credentials_file.getD (home ++ "/.sketchfab_credentials.json")
  let d := dirname path
  if d = "" then ⟨false, [], []⟩
  else ⟨true, [FileContent.empty, FileContent.json (store_serialize c)], [d]⟩

/-- The JSON object returned by the OAuth token endpoint, as the code
consumes it: `access_token` via `.get` (absent key gives `None`),
`refresh_token` only when the key is present, `expires_in` only when
the key is present. -/
structure TokenData where
  access_token : Option String
  refresh_token : Option String
  expires_in : Option Int
deriving Repr, DecidableEq

/-- Outcome of the `requests.post` to the OAuth endpoint: the request
raises (network error), `raise_for_status` raises (non-2xx),
`response.json()` raises (undecodable body), the body decodes to a
non-object (so `token_data.get` raises `AttributeError`), or the body
decodes to a JSON object. -/
inductive RefreshResp where
  | netErr
  | httpErr (status : Nat)
  | badJson
  | nonDictJson
  | okBody (d : TokenData)
deriving Repr, DecidableEq

/-- The three-field precondition checked by `refresh_access_token`:
`all([refresh_token, client_id, client_secret])`. -/
def canRefresh (c : Cred) : Bool :=
  truthyS c.refreshToken && truthyS c.clientId && truthyS c.clientSecret

/-- What `refresh_access_token` did: the resulting credential state,
the returned boolean, whether the HTTP POST to the OAuth endpoint was
issued, and whether `store_updated_credentials` was invoked. -/
structure RefreshOutcome where
  cred : Cred
  ok : Bool
  exchanged : Bool
  saved : Bool
deriving Repr, DecidableEq

/-- `SketchfabClient.refresh_access_token`: returns `False` without
any network call when any of the three refresh fields is falsy; on any
raising response path returns `False` leaving the state unchanged; on
a decoded JSON object overwrites `access_token` with the body's
(possibly absent) `access_token`, overwrites `refresh_token` only when
that key is present, sets `token_expiry` to `now + expires_in` (or
`now + 30` days when absent), stores the credentials, and returns
`True`. -/
def refresh_access_token (now : Int) (c : Cred) (resp : RefreshResp) : RefreshOutcome :=
  if !canRefresh c then ⟨c, false, false, false⟩
  else
    match resp with
    | .netErr => ⟨c, false, true, false⟩
    | .httpErr _ => ⟨c, false, true, false⟩
    | .badJson => ⟨c, false, true, false⟩
    | .nonDictJson => ⟨c, false, true, false⟩
    | .okBody d =>
      let c1 := { c with accessToken := d.access_token }
      let c2 := match d.refresh_token with
        | some v => { c1 with refreshToken := some v }
        | none => c1
      let c3 := { c2 with tokenExpiry := some (now + d.expires_in.getD (30 * 24 * 60 * 60)) }
      ⟨c3, true, true, true⟩

/-- What `ensure_valid_token` did: resulting state, returned boolean,
whether `refresh_access_token` was invoked at all, and whether an
actual token exchange (HTTP POST) happened. -/
structure EnsureOutcome where
  cred : Cred
  ok : Bool
  refreshCalled : Bool
  exchanged : Bool
deriving Repr, DecidableEq

/-- `SketchfabClient.ensure_valid_token`: `False` when no access token
is present; when the expiry is truthy and `now > expiry - 300` the
result is whatever `refresh_access_token` returns; otherwise `True`
with no refresh attempted. -/
def ensure_valid_token (now : Int) (c : Cred) (resp : RefreshResp) : EnsureOutcome :=
  if !truthyS c.accessToken then ⟨c, false, false, false⟩
  else if truthyI c.tokenExpiry && decide (now > c.tokenExpiry.getD 0 - 300) then
    let r := refresh_access_token now c resp
    ⟨r.cred, r.ok, true, r.exchanged⟩
  else ⟨c, true, false, false⟩

/-- Python `or` on two strings: the first operand when truthy, else
the second. -/
def pyOr (a b : String) : String := if a != "" then a else b

/-- Python `or` with an `Optional[str]` first operand (an argparse
value is `None` when the flag is absent). -/
def pyOrO (a : Option String) (b : String) : String := pyOr (a.getD "") b

/-- The four optional command-line flags consumed by
`get_oauth_credentials` (argparse gives `None` for an absent flag). -/
structure ArgsIn where
  accessToken : Option String
  refreshToken : Option String
  clientId : Option String
  clientSecret : Option String
deriving Repr, DecidableEq

/-- The four environment variables, each read with `os.getenv(_, "")`. -/
structure EnvIn where
  accessToken : String
  refreshToken : String
  clientId : String
  clientSecret : String
deriving Repr, DecidableEq

/-- `get_oauth_credentials`: initializes all five values to empty/zero,
best-effort reads the credentials file (a missing file or an exception
leaves the empty values in place), then overrides each string field by
`flag or env or file_value` (first truthy wins).  `token_expiry` comes
only from the file, via `.get("token_expiry", 0)`. -/
def get_oauth_credentials (f : FileRead) (args : ArgsIn) (env : EnvIn) : CredDict :=
  let fileVals : CredJson := match f with
    | .content j => j
    | _ => ⟨none, none, none, none, none⟩
  { access_token := pyOrO args.accessToken (pyOr env.accessToken (fileVals.access_token.getD ""))
  , refresh_token := pyOrO args.refreshToken (pyOr env.refreshToken (fileVals.refresh_token.getD ""))
  , client_id := pyOrO args.clientId (pyOr env.clientId (fileVals.client_id.getD ""))
  , client_secret := pyOrO args.clientSecret (pyOr env.clientSecret (fileVals.client_secret.getD ""))
  , token_expiry := match f with
    | .content j => j.token_expiry.getD 0
    | _ => 0 }

/-- The `count` query parameter built by `SketchfabClient.search`:
`params["count"] = min(limit, 24)` is set only when `limit` is truthy
(nonzero); a zero limit leaves the parameter out entirely. -/
def search_count (limit : Int) : Option Int :=
  if limit != 0 then some (min limit 24) else none

/-- The limit the adapter passes to `search`:
`inputs.get("limit", 10)`. -/
def adapter_limit (limitInput : Option Int) : Int := limitInput.getD 10

/-- The ZIP local-file-header signature `50 4B 03 04`
(`b"PK\x03\x04"`). -/
def zipSig : List Nat := [80, 75, 3, 4]

/-- The archive check in `download_model`:
`len(content) >= 4 and content[0:4] == b"PK\x03\x04"`. -/
def is_zip_content (content : List Nat) : Bool :=
  decide (4 ≤ content.length) && content.take 4 == zipSig

/-- The dictionary `download_model` returns, together with the
directories it handed to `os.makedirs` along the way. -/
structure DownloadOut where
  output_path : String
  is_zip : Bool
  extract_dir : Option String
  extracted_files : List String
  dirsCreated : List String
deriving Repr, DecidableEq

/-- `SketchfabClient.download_model`, after the body bytes have been
fetched: decides `is_zip` from the first four bytes only (the
`Content-Type` header is merely logged), allocates a temp path with a
`.zip` suffix exactly when no destination was given and the content is
an archive, writes the bytes, and — for an archive — creates
`<path>_extracted` with `os.makedirs` and extracts into it, recording
the archive reader's name list.  A raising `zipfile` read becomes a
`ValueError` (`"Failed to download model: ..."`).  `extract_dir` is
`None` whenever `is_zip` is false. -/
def download_model (content : List Nat) (contentType : Option String)
    (output_path : Option String) (tmpName : String)
    (zipRead : Except String (List String)) : Except String DownloadOut :=
  let _hint := contentType
  let is_zip := is_zip_content content
  let path := match output_path with
    | some p => p
    | none => tmpName ++ (if is_zip then ".zip" else "")
  if is_zip then
    let extract_dir := path ++ "_extracted"
    match zipRead with
    | .error e => .error ("Failed to download model: " ++ e)
    | .ok entries => .ok ⟨path, true, some extract_dir, entries, [extract_dir]⟩
  else
    .ok ⟨path, false, none, [], []⟩

/-- Model detail fields the adapter consults: `model.get("isDownloadable", False)`
and `model.get("name", model_id)`. -/
structure ModelDetail where
  isDownloadable : Option Bool
  name : Option String
deriving Repr, DecidableEq

/-- The download-links object: an association of format name to the
entry's optional `url` value (`none` when the entry lacks a `url`
key). -/
abbrev Links := List (String × Option String)

/-- `list(download_links.keys())`. -/
def linksKeys (ls : Links) : List String := ls.map Prod.fst

/-- Membership lookup used for `"gltf" not in download_links` and
`download_links["gltf"]`. -/
def linksLookup (ls : Links) (k : String) : Option (Option String) :=
  (ls.find? (fun p => p.fst == k)).map Prod.snd

/-- The JSON payload of the single text content block the adapter
returns. -/
inductive InvokePayload where
  | modelsOut (models : List String)
  | errOut (msg : String)
  | formatUnavailable (msg : String) (available : List String)
  | gltfOut (model_name model_id gltf_url : String)
deriving Repr, DecidableEq

/-- What one adapter invocation did: the payload of its single text
block, whether `get_download_link` was called, and — when `search` was
called — the limit it was called with. -/
structure InvokeOut where
  payload : InvokePayload
  calledGetDownloadLink : Bool
  searchCalledWith : Option Int
deriving Repr, DecidableEq

def tool_search : String := "threejs_search_models"

def tool_gltf : String := "threejs_get_gltf_model_url"

/-- `handle_invoke_tool`: dispatches on the tool name.  The search tool
needs no token; the GLTF tool is taken only when `name` matches AND the
startup `access_token` is truthy, otherwise control falls to the
`raise ValueError(f"Unknown tool: {name}")` branch, whose message the
blanket `except` turns into an `{"error": ...}` payload.  In the GLTF
branch: a non-downloadable model detail short-circuits with a
not-downloadable error before `get_download_link`; a links object
without a `"gltf"` key yields the format-unavailable payload listing
the available keys; a `"gltf"` entry without a `"url"` key raises
`KeyError("url")`, caught into an error payload. -/
def handle_invoke_tool (name : String) (access_token : String)
    (query : Option String) (limitInput : Option Int) (model_id : Option String)
    (searchRes : List String)
    (getModelRes : Except String ModelDetail)
    (getLinkRes : Except String Links) : InvokeOut :=
  if name == tool_search then
    match query with
    | none => ⟨.errOut (sq ++ "query" ++ sq), false, none⟩
    | some _ => ⟨.modelsOut searchRes, false, some (adapter_limit limitInput)⟩
  else if name == tool_gltf && access_token != "" then
    match model_id with
    | none => ⟨.errOut (sq ++ "model_id" ++ sq), false, none⟩
    | some mid =>
      match getModelRes with
      | .error e => ⟨.errOut e, false, none⟩
      | .ok model =>
        if !(model.isDownloadable.getD false) then
          ⟨.errOut ("Model " ++ sq ++ model.name.getD mid ++ sq ++ " is not downloadable."),
            false, none⟩
        else
          match getLinkRes with
          | .error e => ⟨.errOut e, true, none⟩
          | .ok links =>
            match linksLookup links "gltf" with
            | none =>
              ⟨.formatUnavailable
                ("GLTF format is not available for model " ++ sq ++ model.name.getD mid ++ sq
                  ++ ".") (linksKeys links), true, none⟩
            | some u =>
              match u with
              | none => ⟨.errOut (sq ++ "url" ++ sq), true, none⟩
              | some url => ⟨.gltfOut (model.name.getD mid) mid url, true, none⟩
  else ⟨.errOut ("Unknown tool: " ++ name), false, none⟩

/-- The falsy-guarded string default in `store_serialize` coincides
with a plain `getD ""`. -/
theorem ite_truthyS_getD (x : Option String) :
    (if truthyS x then x.getD "" else "") = x.getD "" := by
  cases x with
  | none => rfl
  | some s =>
    by_cases h : s = ""
    · subst h; rfl
    · simp [truthyS, h]

/-- The falsy-guarded expiry default in `store_serialize` coincides
with a plain `getD 0`. -/
theorem ite_truthyI_getD (x : Option Int) :
    (if truthyI x then x.getD 0 else 0) = x.getD 0 := by
  cases x with
  | none => rfl
  | some n =>
    by_cases h : n = 0
    · subst h; rfl
    · simp [truthyI, h]

/-- The archive test of `download_model`, spelled out. -/
theorem is_zip_content_iff (content : List Nat) :
    is_zip_content content = true ↔ 4 ≤ content.length ∧ content.take 4 = zipSig := by
  simp [is_zip_content]

/-- Claim C5 (confirmed): with `expiryEpochSeconds` unset or `0`,
`ensure_valid_token` never invokes a refresh (no call, no exchange),
leaves the credential unchanged, and returns true exactly when the
access token is non-empty. -/
theorem C5_no_expiry_no_refresh (now : Int) (c : Cred) (resp : RefreshResp)
    (h : c.tokenExpiry = none ∨ c.tokenExpiry = some 0) :
    ensure_valid_token now c resp = ⟨c, truthyS c.accessToken, false, false⟩ := by
  have hti : truthyI c.tokenExpiry = false := by
    rcases h with h | h <;> simp [truthyI, h]
  unfold ensure_valid_token
  cases htok : truthyS c.accessToken <;> simp [hti, htok]

/-- Witness for C5 at a concrete credential with a zero expiry. -/
theorem C5_no_expiry_no_refresh_witness :
    ensure_valid_token 999999 ⟨some "tok", none, none, none, some 0⟩ RefreshResp.netErr
      = ⟨⟨some "tok", none, none, none, some 0⟩, true, false, false⟩ := by
  have h := C5_no_expiry_no_refresh 999999 ⟨some "tok", none, none, none, some 0⟩
    RefreshResp.netErr (Or.inr rfl)
  rw [h]; decide

/-- Claim C9 (confirmed): the constructor, given a non-empty access
token (and no way to supply an expiry), sets `token_expiry` to
`now + 2592000` (30 days), so a fresh client holding a token is never
in the no-expiry state. -/
theorem C9_default_expiry (now : Int) (s : String) (rt ci cs : Option String) (hs : s ≠ "") :
    (init now (some s) rt ci cs).tokenExpiry = some (now + 30 * 24 * 60 * 60) := by
  simp [init, truthyS, truthyI, hs]

/-- Witness for C9 at a concrete token. -/
theorem C9_default_expiry_witness :
    (init 1000 (some "tok") none none none).tokenExpiry = some 2593000 := by
  have h := C9_default_expiry 1000 "tok" none none none (by decide)
  rw [h]; decide

/-- Claim C1 (counterexample): with a non-empty access token, expiry
`1000`, `now = 2000 > 1000 - 300`, and no refresh token, the claim
says `ensure_valid_token` returns true; the code returns false
(`refresh_access_token` bails out with `False` and `ensure_valid_token`
propagates it). -/
theorem C1_counterexample :
    (ensure_valid_token 2000 ⟨some "tok", none, some "id", some "sec", some 1000⟩
      RefreshResp.netErr).ok = false := by decide

/-- Claim C1 (amended): with a token near expiry and any of the three
refresh fields missing, `ensure_valid_token` invokes
`refresh_access_token`, which performs no refresh exchange and leaves
the credential unchanged — but `ensure_valid_token` returns false, not
true (callers such as `get_auth_headers` ignore the return value and
proceed with the possibly-stale token). -/
theorem C1_near_expiry_missing_refresh_fields (now e : Int) (c : Cred) (resp : RefreshResp)
    (htok : truthyS c.accessToken = true) (hexp : c.tokenExpiry = some e) (he : e ≠ 0)
    (hnow : now > e - 300) (hmiss : canRefresh c = false) :
    ensure_valid_token now c resp = ⟨c, false, true, false⟩ := by
  unfold ensure_valid_token refresh_access_token
  simp [htok, hexp, truthyI, he, hnow, hmiss]

/-- Witness for the amended C1 at a concrete credential. -/
theorem C1_near_expiry_missing_refresh_fields_witness :
    ensure_valid_token 2000 ⟨some "tok", none, some "id", some "sec", some 1000⟩
        RefreshResp.netErr
      = ⟨⟨some "tok", none, some "id", some "sec", some 1000⟩, false, true, false⟩ :=
  C1_near_expiry_missing_refresh_fields 2000 1000 _ _ (by decide) rfl (by decide) (by decide)
    (by decide)

/-- Claim C2 (counterexample): a 2xx response whose body is the JSON
object `{}` — incomplete, lacking `access_token` — is treated as
success: `refresh_access_token` returns `True` and overwrites
`access_token` with `None`, so the fields are not left unchanged and
failure is not reported. -/
theorem C2_counterexample :
    (refresh_access_token 100 ⟨some "old", some "r", some "i", some "s", some 5000⟩
        (RefreshResp.okBody ⟨none, none, none⟩)).ok = true ∧
      (refresh_access_token 100 ⟨some "old", some "r", some "i", some "s", some 5000⟩
        (RefreshResp.okBody ⟨none, none, none⟩)).cred.accessToken = none := by decide

/-- Claim C2 (amended): for the refresh failures that raise — network
error, non-2xx status, or a body that fails to decode as a JSON object
— all five credential fields are left unchanged and the call reports
failure; but a 2xx body that decodes to a JSON object is always
treated as success, even when incomplete, overwriting `access_token`
with the body's possibly-absent field. -/
theorem C2_raising_refresh_leaves_cred_unchanged (now : Int) (c : Cred) (resp : RefreshResp)
    (hcan : canRefresh c = true)
    (hfail : resp = .netErr ∨ (∃ s, resp = .httpErr s) ∨ resp = .badJson ∨ resp = .nonDictJson) :
    refresh_access_token now c resp = ⟨c, false, true, false⟩ := by
  rcases hfail with h | ⟨s, h⟩ | h | h <;> subst h <;> simp [refresh_access_token, hcan]

/-- Witness for the amended C2 at a concrete credential and a
malformed (undecodable) response body. -/
theorem C2_raising_refresh_leaves_cred_unchanged_witness :
    refresh_access_token 0 ⟨some "t", some "r", some "i", some "s", none⟩ RefreshResp.badJson
      = ⟨⟨some "t", some "r", some "i", some "s", none⟩, false, true, false⟩ :=
  C2_raising_refresh_leaves_cred_unchanged 0 _ _ (by decide) (Or.inr (Or.inr (Or.inl rfl)))

/-- Claim C3 (counterexample): `load_from_file` on a missing file
returns `None` — not a Credential with all five fields empty/zero. -/
theorem C3_counterexample :
    load_from_file 0 FileRead.missing = none ∧
      load_from_file 0 FileRead.missing ≠ some ⟨some "", some "", some "", some "", none⟩ := by
  decide

/-- Claim C3 (amended): on a missing or malformed credentials file,
`load_from_file` returns `None` (no client) without raising, while the
startup loader `get_oauth_credentials` — absent any flag or
environment overrides — returns all five fields empty/zero without
raising, so startup is never aborted. -/
theorem C3_missing_or_malformed_file (now : Int) (f : FileRead)
    (h : f = FileRead.missing ∨ f = FileRead.unreadable) :
    load_from_file now f = none ∧
      get_oauth_credentials f ⟨none, none, none, none⟩ ⟨"", "", "", ""⟩
        = ⟨"", "", "", "", 0⟩ := by
  rcases h with h | h <;> subst h <;> exact ⟨rfl, by decide⟩

/-- Witness for the amended C3 on the missing-file case. -/
theorem C3_missing_or_malformed_file_witness :
    load_from_file 0 FileRead.missing = none ∧
      get_oauth_credentials FileRead.missing ⟨none, none, none, none⟩ ⟨"", "", "", ""⟩
        = ⟨"", "", "", "", 0⟩ :=
  C3_missing_or_malformed_file 0 FileRead.missing (Or.inl rfl)

/-- Claim C4 (counterexample): `search` with `limit = 0` sends no
`count` parameter at all (the provider default applies), not an
effective limit of 10; and a negative limit such as `-5` is sent
through as `count = -5`, outside the claimed 1..24 range. -/
theorem C4_counterexample :
    search_count 0 = none ∧ search_count (-5) = some (-5) := by decide

/-- Claim C4 (amended): a positive limit above 24 is clamped to
`count = 24` and a limit in 1..24 passes through; an unset limit
defaults to 10 at the adapter (`inputs.get("limit", 10)`), so the
adapter's search call then sends `count = 10`; but a zero limit causes
the `count` parameter to be omitted entirely, and a negative limit is
sent through un-clamped. -/
theorem C4_count_clamping (l : Int) :
    (24 < l → search_count l = some 24) ∧
    (1 ≤ l → l ≤ 24 → search_count l = some l) ∧
    search_count 0 = none ∧
    (l < 0 → search_count l = some l) ∧
    adapter_limit none = 10 ∧
    (handle_invoke_tool tool_search "" (some "car") none none [] (.error "")
        (.error "")).searchCalledWith = some 10 := by
  refine ⟨?_, ?_, rfl, ?_, rfl, by decide⟩
  · intro h
    have hne : l ≠ 0 := by omega
    simp [search_count, hne, min_eq_right h.le]
  · intro h1 h2
    have hne : l ≠ 0 := by omega
    simp [search_count, hne, min_eq_left h2]
  · intro h
    have hne : l ≠ 0 := by omega
    have h24 : l ≤ 24 := by omega
    simp [search_count, hne, min_eq_left h24]

/-- Witness for the amended C4 at concrete limits 30, 10 and -7. -/
theorem C4_count_clamping_witness :
    search_count 30 = some 24 ∧ search_count 10 = some 10 ∧ search_count (-7) = some (-7) :=
  ⟨(C4_count_clamping 30).1 (by decide), (C4_count_clamping 10).2.1 (by decide) (by decide),
    (C4_count_clamping (-7)).2.2.2.1 (by decide)⟩

/-- Claim C6 (counterexample): the very first on-disk state after
`open(path, "w")` is the empty file — neither a pre-existing valid
serialization (such as `⟨"a", "b", "c", "d", 5⟩`) nor the new one — so
a write that fails midway leaves the file corrupted: the overwrite is
not atomic (no temp-file-and-rename). -/
theorem C6_counterexample :
    (store_updated_credentials ⟨some "new", none, none, none, some 7⟩ (some "cfg/creds.json")
        "/home/u").states.head? = some FileContent.empty ∧
      FileContent.empty ≠ FileContent.json
        (store_serialize ⟨some "new", none, none, none, some 7⟩) ∧
      FileContent.empty ≠ FileContent.json ⟨"a", "b", "c", "d", 5⟩ := by decide

/-- Claim C6 (amended): `store_updated_credentials` serializes exactly
five fields — absent token/id/secret default to the empty string,
absent expiry to 0 — and hands the target's parent directory to
`os.makedirs`; but it overwrites the file in place (truncate, then
write), so the file passes through an intermediate empty state and the
overwrite is not atomic. -/
theorem C6_store_serializes_and_truncates (c : Cred) (path home : String)
    (hd : dirname path ≠ "") :
    store_updated_credentials c (some path) home
      = ⟨true, [FileContent.empty, FileContent.json (store_serialize c)], [dirname path]⟩ ∧
      store_serialize c = ⟨c.accessToken.getD "", c.refreshToken.getD "", c.clientId.getD "",
        c.clientSecret.getD "", c.tokenExpiry.getD 0⟩ := by
  constructor
  · simp [store_updated_credentials, hd]
  · unfold store_serialize
    rw [ite_truthyS_getD, ite_truthyS_getD, ite_truthyS_getD, ite_truthyS_getD, ite_truthyI_getD]

/-- Witness for the amended C6 at a concrete credential and path. -/
theorem C6_store_serializes_and_truncates_witness :
    store_updated_credentials ⟨none, some "", some "i", none, some 0⟩ (some "cfg/creds.json") "/h"
      = ⟨true, [FileContent.empty, FileContent.json ⟨"", "", "i", "", 0⟩], ["cfg"]⟩ := by
  have h := C6_store_serializes_and_truncates ⟨none, some "", some "i", none, some 0⟩
    "cfg/creds.json" "/h" (by decide)
  rw [h.1, h.2]; decide

/-- Claim C7 (confirmed): in the GLTF-URL branch, a model detail with
`isDownloadable` false (or absent, defaulting to false) short-circuits
into the not-downloadable error payload naming the model, and
`get_download_link` is never called. -/
theorem C7_not_downloadable_short_circuit (access_token : String) (q : Option String)
    (lim : Option Int) (mid : String) (searchRes : List String) (detail : ModelDetail)
    (linkRes : Except String Links) (htok : access_token ≠ "")
    (hdl : detail.isDownloadable.getD false = false) :
    handle_invoke_tool tool_gltf access_token q lim (some mid) searchRes (.ok detail) linkRes
      = ⟨.errOut ("Model " ++ sq ++ detail.name.getD mid ++ sq ++ " is not downloadable."),
          false, none⟩ := by
  unfold handle_invoke_tool
  have h1 : (tool_gltf == tool_search) = false := by decide
  simp [h1, htok, hdl]

/-- Witness for C7 at a concrete non-downloadable model. -/
theorem C7_not_downloadable_short_circuit_witness :
    handle_invoke_tool tool_gltf "t" none none (some "m1") [] (.ok ⟨some false, some "Car"⟩)
        (.error "x")
      = ⟨.errOut ("Model " ++ sq ++ "Car" ++ sq ++ " is not downloadable."), false, none⟩ :=
  C7_not_downloadable_short_circuit "t" none none "m1" [] ⟨some false, some "Car"⟩
    (.error "x") (by decide) rfl

/-- Claim C8 (confirmed): whenever `download_model` produces a result,
its `is_zip` flag is true exactly when the first four bytes of the
body are `50 4B 03 04` — the result is identical for any
`Content-Type` hint — and an archive result always carries
`extract_dir = <output_path>_extracted`, a directory that was handed
to `os.makedirs` before extraction (so it exists even for an empty
archive). -/
theorem C8_archive_detection (content : List Nat) (ct ct2 outP : Option String) (tmp : String)
    (zipRead : Except String (List String)) (res : DownloadOut)
    (h : download_model content ct outP tmp zipRead = .ok res) :
    (res.is_zip = true ↔ 4 ≤ content.length ∧ content.take 4 = zipSig) ∧
    (res.is_zip = true → res.extract_dir = some (res.output_path ++ "_extracted") ∧
      res.dirsCreated = [res.output_path ++ "_extracted"]) ∧
    download_model content ct2 outP tmp zipRead = .ok res := by
  have hct : download_model content ct2 outP tmp zipRead = .ok res := h
  unfold download_model at h
  have key : res.is_zip = is_zip_content content ∧
      (res.is_zip = true → res.extract_dir = some (res.output_path ++ "_extracted") ∧
        res.dirsCreated = [res.output_path ++ "_extracted"]) := by
    cases hz : is_zip_content content <;> rw [hz] at h <;> simp at h
    · subst h; simp [hz]
    · cases zipRead with
      | error e => simp at h
      | ok entries => simp at h; subst h; simp [hz]
  refine ⟨?_, key.2, hct⟩
  rw [key.1]
  exact is_zip_content_iff content

/-- Witness for C8 at a concrete four-byte ZIP signature body with an
empty archive. -/
theorem C8_archive_detection_witness :
    (((⟨"f", true, some "f_extracted", [], ["f_extracted"]⟩ : DownloadOut).is_zip = true ↔
        4 ≤ ([80, 75, 3, 4] : List Nat).length ∧ ([80, 75, 3, 4] : List Nat).take 4 = zipSig) ∧
      ((⟨"f", true, some "f_extracted", [], ["f_extracted"]⟩ : DownloadOut).is_zip = true →
        (⟨"f", true, some "f_extracted", [], ["f_extracted"]⟩ : DownloadOut).extract_dir
            = some ((⟨"f", true, some "f_extracted", [], ["f_extracted"]⟩ :
              DownloadOut).output_path ++ "_extracted") ∧
          (⟨"f", true, some "f_extracted", [], ["f_extracted"]⟩ : DownloadOut).dirsCreated
            = [(⟨"f", true, some "f_extracted", [], ["f_extracted"]⟩ :
              DownloadOut).output_path ++ "_extracted"]) ∧
      download_model [80, 75, 3, 4] none (some "f") "t" (.ok [])
        = .ok ⟨"f", true, some "f_extracted", [], ["f_extracted"]⟩) :=
  C8_archive_detection [80, 75, 3, 4] (some "text/html") none (some "f") "t" (.ok [])
    ⟨"f", true, some "f_extracted", [], ["f_extracted"]⟩ rfl

/-- Claim C10 (confirmed): invoking `threejs_get_gltf_model_url` with
no access token configured falls into the same `else` branch as a
completely unrecognized name: the `raise ValueError` message becomes
the single text payload `{"error": "Unknown tool: <name>"}`, with no
auth-specific failure and no downstream call. -/
theorem C10_gltf_without_token_is_unknown_tool (q : Option String) (lim : Option Int)
    (mid : Option String) (searchRes : List String) (gRes : Except String ModelDetail)
    (lRes : Except String Links) (name : String) (hn1 : name ≠ tool_search)
    (hn2 : name ≠ tool_gltf) :
    handle_invoke_tool tool_gltf "" q lim mid searchRes gRes lRes
      = ⟨.errOut ("Unknown tool: " ++ tool_gltf), false, none⟩ ∧
    handle_invoke_tool name "" q lim mid searchRes gRes lRes
      = ⟨.errOut ("Unknown tool: " ++ name), false, none⟩ := by
  constructor
  · unfold handle_invoke_tool
    have h1 : (tool_gltf == tool_search) = false := by decide
    simp [h1]
  · unfold handle_invoke_tool
    simp [hn1, hn2]

/-- Witness for C10 against a concrete unrecognized name. -/
theorem C10_gltf_without_token_is_unknown_tool_witness :
    handle_invoke_tool tool_gltf "" none none none [] (.error "") (.error "")
        = ⟨.errOut ("Unknown tool: " ++ tool_gltf), false, none⟩ ∧
      handle_invoke_tool "bogus_tool" "" none none none [] (.error "") (.error "")
        = ⟨.errOut ("Unknown tool: " ++ "bogus_tool"), false, none⟩ :=
  C10_gltf_without_token_is_unknown_tool none none none [] (.error "") (.error "")
    "bogus_tool" (by decide) (by decide)

end ThreeJS
